/-
Verification of the SSH transport packet engine and mpint codec
(paramiko `packet.py` and `util.py`), as a shallow embedding in Lean 4.

Byte strings are modelled as `List Nat` with every element below 256
(maintained by construction).  Stream sockets are modelled as the list
of bytes available to read; writing is modelled by returning the bytes
that were written.  Python exceptions become an explicit error type,
and a method that mutates the object returns the updated state
alongside its result, with the state reflecting exactly the mutations
performed before a raise.
-/
import Mathlib

set_option autoImplicit false

abbrev Bytes := List Nat

/-- Python `struct.pack(">I", n)` for `0 ≤ n < 2^32`: the four big-endian
bytes of `n`. -/
def pack_u32 (n : Nat) : Bytes :=
  [n / 16777216 % 256, n / 65536 % 256, n / 256 % 256, n % 256]

/-- Python `struct.unpack(">I", l)[0]` for a four-byte string `l`. -/
def unpack_u32 (l : Bytes) : Nat :=
  match l with
  | [a, b, c, d] => ((a * 256 + b) * 256 + c) * 256 + d
  | _ => 0

/-- Python `l[:-k]` where `k` is a nonnegative int: for `k = 0` this is
`l[:0] = []`, otherwise everything but the last `k` elements. -/
def pyTakeNeg (l : Bytes) (k : Nat) : Bytes :=
  if k = 0 then [] else l.take (l.length - k)

/-- Python `l[-k:]` where `k` is a nonnegative int: for `k = 0` this is
`l[0:] = l`, otherwise the last `k` elements. -/
def pyDropNeg (l : Bytes) (k : Nat) : Bytes :=
  if k = 0 then l else l.drop (l.length - k)

/-- Python `l[1:j]` where the stop index `j` may be any int (a negative
stop counts from the end of the list). -/
def pySlice1 (l : Bytes) (j : Int) : Bytes :=
  let stop : Int := if j < 0 then j + l.length else j
  (l.take stop.toNat).drop 1

/-- Errors a `Packetizer` method can raise.  `eofError`, `attributeError`,
`indexError` and `structError` are the Python builtins of those names;
`invalidPacketBlocking` and `mismatchedMAC` are the two `SSHException`s
raised by `read_message` (distinguished by their message); `needRekey`
is `NeedRekeyException`; `socketError` stands for a failure of the
underlying `socket.sendall`. -/
inductive PError where
  | eofError
  | attributeError
  | indexError
  | structError
  | invalidPacketBlocking
  | mismatchedMAC
  | needRekey
  | socketError
  deriving DecidableEq

/-- State of `Packetizer` (packet.py).  Cipher block engines are modelled
as optional byte-string transformers (`None` before the first key
exchange).  The outbound MAC engine is called as
`digest(mac_key, sequence_number, payload)` and the inbound one as
`digest(mac_key, mac_payload)`, exactly as in the source.  The socket,
logger, locks, compression engines and wall-clock timestamps are not part
of the state; the handshake timer is modelled separately below. -/
structure Packetizer where
  closed : Bool
  dump_packets : Bool
  need_rekey_flag : Bool
  init_count : Nat
  remainder : Bytes
  initial_kex_done : Bool
  sent_bytes : Nat
  sent_packets : Nat
  received_bytes : Nat
  received_packets : Nat
  received_bytes_overflow : Nat
  received_packets_overflow : Nat
  block_size_out : Nat
  block_size_in : Nat
  mac_size_out : Nat
  mac_size_in : Nat
  block_engine_out : Option (Bytes → Bytes)
  block_engine_in : Option (Bytes → Bytes)
  sdctr_out : Bool
  mac_engine_out : Option (Bytes → Nat → Bytes → Bytes)
  mac_engine_in : Option (Bytes → Bytes → Bytes)
  mac_key_out : Bytes
  mac_key_in : Bytes
  sequence_number_out : Nat
  sequence_number_in : Nat
  etm_out : Bool
  etm_in : Bool
  keepalive_interval : Nat
  handshake_complete : Bool
  timer_expired : Bool

/-- Rekey thresholds: `Packetizer.REKEY_BYTES = pow(2, 29)`. -/
def REKEY_BYTES : Nat := 2 ^ 29

/-- Rekey thresholds: `Packetizer.REKEY_PACKETS = pow(2, 29)`. -/
def REKEY_PACKETS : Nat := 2 ^ 29

/-- State built by `Packetizer.__init__`. -/
def packetizer_init : Packetizer where
  closed := false
  dump_packets := false
  need_rekey_flag := false
  init_count := 0
  remainder := []
  initial_kex_done := false
  sent_bytes := 0
  sent_packets := 0
  received_bytes := 0
  received_packets := 0
  received_bytes_overflow := 0
  received_packets_overflow := 0
  block_size_out := 8
  block_size_in := 8
  mac_size_out := 0
  mac_size_in := 0
  block_engine_out := none
  block_engine_in := none
  sdctr_out := false
  mac_engine_out := none
  mac_engine_in := none
  mac_key_out := []
  mac_key_in := []
  sequence_number_out := 0
  sequence_number_in := 0
  etm_out := false
  etm_in := false
  keepalive_interval := 0
  handshake_complete := false
  timer_expired := false

/-- Embedding of `Packetizer.set_outbound_cipher`. -/
def set_outbound_cipher (st : Packetizer) (block_engine : Option (Bytes → Bytes))
    (block_size : Nat) (mac_engine : Option (Bytes → Nat → Bytes → Bytes))
    (mac_size : Nat) (mac_key : Bytes) (sdctr : Bool) (etm : Bool) : Packetizer :=
  { st with
    block_engine_out := block_engine
    block_size_out := block_size
    mac_engine_out := mac_engine
    mac_size_out := mac_size
    mac_key_out := mac_key
    sdctr_out := sdctr
    etm_out := etm }

/-- Embedding of `Packetizer.set_inbound_cipher`. -/
def set_inbound_cipher (st : Packetizer) (block_engine : Option (Bytes → Bytes))
    (block_size : Nat) (mac_engine : Option (Bytes → Bytes → Bytes))
    (mac_size : Nat) (mac_key : Bytes) (etm : Bool) : Packetizer :=
  { st with
    block_engine_in := block_engine
    block_size_in := block_size
    mac_engine_in := mac_engine
    mac_size_in := mac_size
    mac_key_in := mac_key
    etm_in := etm }

/-- Embedding of `Packetizer.need_rekey`. -/
def need_rekey (st : Packetizer) : Bool :=
  st.need_rekey_flag || decide (REKEY_BYTES ≤ st.sent_bytes)
    || decide (REKEY_PACKETS ≤ st.sent_packets)

/-- Embedding of `Packetizer.send_message`.  `send_ok` models whether the underlying
`socket.sendall` succeeds; on failure the exception propagates, so the
fields assigned before the `sendall` call keep their new values while the
ones assigned after it are untouched.  On success the bytes put on the
wire are returned. -/
def send_message (st : Packetizer) (send_ok : Bool) (data : Bytes) :
    Packetizer × Except PError Bytes :=
  match st.block_engine_out with
  | none => (st, Except.error PError.attributeError)
  | some enc =>
    match st.mac_engine_out with
    | none => (st, Except.error PError.attributeError)
    | some mac_eng =>
      let payload := enc data
      let mac := mac_eng st.mac_key_out st.sequence_number_out payload
      let packet := pack_u32 payload.length ++ payload ++ mac
      let st1 := { st with sequence_number_out := (st.sequence_number_out + 1) % 4294967296 }
      if send_ok then
        ({ st1 with
            sent_bytes := st1.sent_bytes + packet.length
            sent_packets := st1.sent_packets + 1 },
         Except.ok packet)
      else
        (st1, Except.error PError.socketError)

/-- Embedding of `Packetizer.read_all` as `read_all stream n check_rekey rekey_now`: take `n` bytes
off the front of `stream`, raising `EOFError` if the stream is exhausted
first; when `check_rekey` is set and `need_rekey()` (passed in as
`rekey_now`) holds after a complete read, raise `NeedRekeyException`.
Returns the bytes read and the remaining stream. -/
def read_all (stream : Bytes) (n : Nat) (check_rekey : Bool) (rekey_now : Bool) :
    Except PError (Bytes × Bytes) :=
  if stream.length < n then Except.error PError.eofError
  else if check_rekey && rekey_now then Except.error PError.needRekey
  else Except.ok (stream.take n, stream.drop n)

/-- Tail of `Packetizer.read_message` after the MAC check: read the
padding length from the first packet byte, slice out the payload, advance
`sequence_number_in` and the received counters, then raise
`NeedRekeyException` if `need_rekey()` now holds. -/
def read_message_payload (st : Packetizer) (packet_size : Nat) (packet : Bytes) :
    Packetizer × Except PError Bytes :=
  match packet with
  | [] => (st, Except.error PError.indexError)
  | padding :: _ =>
    let payload := pySlice1 packet ((packet_size : Int) - (padding : Int))
    let st1 := { st with
      sequence_number_in := (st.sequence_number_in + 1) % 4294967296
      received_bytes := st.received_bytes + packet_size + st.mac_size_in + 4
      received_packets := st.received_packets + 1 }
    if need_rekey st1 then (st1, Except.error PError.needRekey)
    else (st1, Except.ok payload)

/-- MAC-verification stage of `Packetizer.read_message`: when the inbound
MAC size is positive, compare the received MAC against
`mac_engine_in.digest(mac_key_in, pack(">I", seq_in) + packet)` and raise
`SSHException("Mismatched MAC")` on inequality. -/
def read_message_mac (st : Packetizer) (packet_size : Nat) (packet mac : Bytes) :
    Packetizer × Except PError Bytes :=
  if 0 < st.mac_size_in then
    match st.mac_engine_in with
    | none => (st, Except.error PError.attributeError)
    | some eng =>
      let mac_payload := pack_u32 st.sequence_number_in ++ packet
      let my_mac := eng st.mac_key_in mac_payload
      if my_mac ≠ mac then (st, Except.error PError.mismatchedMAC)
      else read_message_payload st packet_size packet
  else read_message_payload st packet_size packet

/-- Embedding of `Packetizer.read_message`, reading from the byte stream `stream`:
read one cipher block as the header, unpack the declared packet size,
check block alignment of what remains (Python `%` on ints, i.e. `emod`),
read the body plus MAC, then verify the MAC and extract the payload. -/
def read_message (st : Packetizer) (stream : Bytes) :
    Packetizer × Except PError Bytes :=
  match read_all stream st.block_size_in true (need_rekey st) with
  | Except.error e => (st, Except.error e)
  | Except.ok (header, rest) =>
    if header.length < 4 then (st, Except.error PError.structError)
    else
      let packet_size := unpack_u32 (header.take 4)
      let leftover := header.drop 4
      if ((packet_size : Int) - (leftover.length : Int)) % (st.block_size_in : Int) ≠ 0 then
        (st, Except.error PError.invalidPacketBlocking)
      else
        match read_all rest (packet_size + st.mac_size_in - leftover.length) false false with
        | Except.error e => (st, Except.error e)
        | Except.ok (buf, _) =>
          let packet := leftover ++ pyTakeNeg buf st.mac_size_in
          let mac := pyDropNeg buf st.mac_size_in
          read_message_mac st packet_size packet mac

/-
mpint codec from util.py.

The `while (n != 0) and (n != -1): s = struct.pack(">I", n & xffffffff) + s;
n = n >> 32` loop of `deflate_long` is split on the sign of `n`, because
Lean's `Int` recursion is awkward while Python's operators on a negative
`n` have simple closed forms: writing `n = -1 - k` with `k ≥ 0`,
`n & 0xffffffff = 2^32 - 1 - k % 2^32` and `n >> 32 = -1 - k / 2^32`
(Python `>>` floors), and the loop guard `n ≠ -1` becomes `k ≠ 0`.
After the loop, `n` is `0` when it started nonnegative and `-1` when it
started negative.
-/

/-- Chunk accumulation of `deflate_long`'s while loop for `n ≥ 0`:
`posChunks m` is the list of 32-bit big-endian chunks of `m`,
most significant first, empty for `m = 0`. -/
def posChunks (m : Nat) : Bytes :=
  if h : m = 0 then []
  else
    have : m / 4294967296 < m := Nat.div_lt_self (Nat.pos_of_ne_zero h) (by norm_num)
    posChunks (m / 4294967296) ++ pack_u32 (m % 4294967296)
termination_by m

/-- Chunk accumulation of `deflate_long`'s while loop for `n < 0`,
with `n = -1 - k`: each iteration packs `n & 0xffffffff = 2^32 - 1 - k % 2^32`
and continues with `k / 2^32`; the loop stops when `k = 0` (i.e. `n = -1`). -/
def negChunks (k : Nat) : Bytes :=
  if h : k = 0 then []
  else
    have : k / 4294967296 < k := Nat.div_lt_self (Nat.pos_of_ne_zero h) (by norm_num)
    negChunks (k / 4294967296) ++ pack_u32 (4294967295 - k % 4294967296)
termination_by k

/-- Sign-padding step of `deflate_long` (`nf` is the value of `n` after the
while loop: `0` for an originally nonnegative `n`, `-1` otherwise):
prepend `0x00` when `n == 0` and the top bit of the first byte is set,
prepend `0xff` when `n < 0` and the top bit of the first byte is clear. -/
def deflate_sign_pad (nf : Int) (s : Bytes) : Bytes :=
  let s1 := if nf = 0 ∧ 0 < s.length ∧ (s.headD 0) &&& 128 ≠ 0 then 0 :: s else s
  if nf < 0 ∧ 0 < s1.length ∧ (s1.headD 0) &&& 128 = 0 then 255 :: s1 else s1

/-- Embedding of `util.deflate_long`.  Note the source's strip loop
`if (s[i] != '\000') and (s[i] != '\xff'): break` compares the int `s[i]`
against one-character strings, which in Python 3 is always unequal, so
whenever `s` is nonempty the loop breaks immediately at `i = 0` and
nothing is stripped.  When `s` is empty (degenerate case `n ∈ {0, -1}`)
the `else` branch sets `s = b"\x00"` and `i = 0` for `n == 0`, `i = 1`
for `n == -1`, so `s[i:]` is `b"\x00"` or `b""` respectively. -/
def deflate_long (n : Int) (add_sign_padding : Bool) : Bytes :=
  let s := if 0 ≤ n then posChunks n.toNat else negChunks (-n - 1).toNat
  let nf : Int := if 0 ≤ n then 0 else -1
  let s1 := if 0 < s.length then s else if nf = 0 then [0] else []
  if add_sign_padding then deflate_sign_pad nf s1 else s1

/-- The 32-bit-chunk loop of `util.inflate_long`:
`for i in range(0, len(s), 4): out = (out << 32) + struct.unpack(">I", s[i:i+4])[0]`.
The byte string has been zero-padded to a multiple of four bytes, so it is
consumed four bytes at a time; a final fragment shorter than four bytes
cannot occur (and Python would raise there), so it is ignored. -/
def inflate_chunks : Bytes → Nat → Nat
  | b0 :: b1 :: b2 :: b3 :: rest, out =>
    inflate_chunks rest (out * 4294967296 + unpack_u32 [b0, b1, b2, b3])
  | _, out => out

/-- Embedding of `util.inflate_long`.  Mirrors the source exactly, including its
negative branch `out = (1 << (8 * len(s))) - out` (with `len(s)` the
zero-padded length), which yields a positive result. -/
def inflate_long (s : Bytes) (always_positive : Bool) : Int :=
  let negative : Bool := !always_positive && decide (0 < s.length)
    && decide ((s.headD 0) &&& 128 ≠ 0)
  let s1 := if s.length % 4 ≠ 0 then List.replicate (4 - s.length % 4) 0 ++ s else s
  let out : Nat := inflate_chunks s1 0
  if negative then
    let out1 : Int := (2 ^ (8 * s1.length) : Int) - (out : Int)
    if out1 = 0 then -1 else out1
  else (out : Int)

/-
Handshake-timeout bookkeeping (`start_handshake` / `handshake_timed_out` /
`complete_handshake`).  The source arms a `threading.Timer(timeout, cb)`
whose callback `cb = self.__handshake_timed_out` is referenced but not
defined in the source; per the spec's deadline state machine the callback
records that the deadline fired.  Real time is modelled by an explicit
clock `now` and an `elapse` step: an armed, uncancelled timer fires as
soon as the clock reaches its deadline.
-/

/-- Handshake-timer fragment of the `Packetizer` state: the clock, the
armed timer's fire time (`none` when no timer is armed or it has been
cancelled), and the `__handshake_complete` / `__timer_expired` flags. -/
structure HandshakeState where
  now : Nat
  deadline : Option Nat
  timer_expired : Bool
  handshake_complete : Bool
  deriving DecidableEq

/-- Handshake fields as set by `Packetizer.__init__` (no timer armed). -/
def handshake_init : HandshakeState where
  now := 0
  deadline := none
  timer_expired := false
  handshake_complete := false

/-- Embedding of `Packetizer.start_handshake(timeout)`: clear the completion flag and
arm a timer that fires `timeout` from now. -/
def start_handshake (s : HandshakeState) (timeout : Nat) : HandshakeState :=
  { s with handshake_complete := false, deadline := some (s.now + timeout) }

/-- Modelled from the spec: the timer callback `__handshake_timed_out`,
referenced by `start_handshake` but missing from the source; per the
spec's deadline state machine (`in-progress → timed-out if the deadline
elapses before completion`) it records that the deadline fired. -/
def handshake_timer_fire (s : HandshakeState) : HandshakeState :=
  { s with timer_expired := true }

/-- Passage of `dt` units of wall-clock time: an armed timer whose
deadline has been reached fires (runs `handshake_timer_fire`) and disarms. -/
def elapse (s : HandshakeState) (dt : Nat) : HandshakeState :=
  let s1 := { s with now := s.now + dt }
  match s.deadline with
  | some d => if d ≤ s1.now then { handshake_timer_fire s1 with deadline := none } else s1
  | none => s1

/-- Embedding of `Packetizer.complete_handshake`: record completion and cancel the
timer if one is armed. -/
def complete_handshake (s : HandshakeState) : HandshakeState :=
  { s with handshake_complete := true, deadline := none }

/-- Embedding of `Packetizer.handshake_timed_out`, as the method: it returns
`self.__timer_expired and not self.__handshake_complete` and performs no
assignment, so the state comes back unchanged. -/
def handshake_timed_out_method (s : HandshakeState) : HandshakeState × Bool :=
  (s, s.timer_expired && !s.handshake_complete)

/-- Embedding of `Packetizer.handshake_timed_out`, as a query. -/
def handshake_timed_out (s : HandshakeState) : Bool :=
  s.timer_expired && !s.handshake_complete

/-- Packet bytes (leftover header bytes plus body without the trailing
MAC) that `read_message` assembles from state `st` and stream `stream`. -/
def rm_packet (st : Packetizer) (stream : Bytes) : Bytes :=
  let header := stream.take st.block_size_in
  let leftover := header.drop 4
  let n2 := unpack_u32 (header.take 4) + st.mac_size_in - leftover.length
  leftover ++ pyTakeNeg ((stream.drop st.block_size_in).take n2) st.mac_size_in

/-- MAC bytes that `read_message` slices off the end of the frame read
from state `st` and stream `stream`. -/
def rm_mac (st : Packetizer) (stream : Bytes) : Bytes :=
  let header := stream.take st.block_size_in
  let leftover := header.drop 4
  let n2 := unpack_u32 (header.take 4) + st.mac_size_in - leftover.length
  pyDropNeg ((stream.drop st.block_size_in).take n2) st.mac_size_in

/-- The blocking test `(packet_size - len(leftover)) % block_size ≠ 0`
performed on Python ints, with `len(leftover) = block_size - 4`, holds
exactly when `(packet_size + 4) % block_size ≠ 0` on naturals: the two
differ by one full modulus. -/
theorem blocking_cond_iff (ps bs : Nat) (hbs : 4 ≤ bs) :
    ((ps : Int) - ((bs - 4 : Nat) : Int)) % (bs : Int) = 0 ↔ (ps + 4) % bs = 0 := by
  have h2 : ((bs - 4 : Nat) : Int) = (bs : Int) - 4 := by omega
  have h3 : (ps : Int) - ((bs : Int) - 4) = ((ps + 4 : Nat) : Int) + (bs : Int) * (-1) := by
    push_cast
    ring
  rw [h2, h3, Int.add_mul_emod_self_left, ← Int.natCast_mod]
  exact Nat.cast_eq_zero

/-- The payload stage of `read_message` cannot produce the "Invalid
packet blocking" error. -/
theorem read_message_payload_not_blocking (st : Packetizer) (ps : Nat) (packet : Bytes) :
    (read_message_payload st ps packet).2 ≠ Except.error PError.invalidPacketBlocking := by
  unfold read_message_payload
  dsimp only
  split
  · simp
  · split <;> simp

/-- Neither the MAC-verification stage nor the payload stage of
`read_message` can produce the "Invalid packet blocking" error. -/
theorem read_message_mac_not_blocking (st : Packetizer) (ps : Nat) (packet mac : Bytes) :
    (read_message_mac st ps packet mac).2 ≠ Except.error PError.invalidPacketBlocking := by
  unfold read_message_mac
  dsimp only
  split
  · split
    · simp
    · split
      · simp
      · exact read_message_payload_not_blocking _ _ _
  · exact read_message_payload_not_blocking _ _ _

/-- When the header is available, no rekey is pending and the blocking
check passes, `read_message` proceeds to read the body: end of stream
there is an `EOFError`, and otherwise the MAC stage runs on the packet
and MAC slices. -/
theorem read_message_past_blocking (st : Packetizer) (stream : Bytes)
    (hbs : 4 ≤ st.block_size_in) (hlen : st.block_size_in ≤ stream.length)
    (hrk : need_rekey st = false)
    (hal : (unpack_u32 (stream.take 4) + 4) % st.block_size_in = 0) :
    read_message st stream =
      if (stream.drop st.block_size_in).length
          < unpack_u32 (stream.take 4) + st.mac_size_in - (st.block_size_in - 4) then
        (st, Except.error PError.eofError)
      else
        read_message_mac st (unpack_u32 (stream.take 4)) (rm_packet st stream)
          (rm_mac st stream) := by
  have h1 : ¬ (stream.length < st.block_size_in) := not_lt.mpr hlen
  have hhl : (stream.take st.block_size_in).length = st.block_size_in := by
    rw [List.length_take]; omega
  have hh4 : (stream.take st.block_size_in).take 4 = stream.take 4 := by
    rw [List.take_take]; congr 1; omega
  have hlo : ((stream.take st.block_size_in).drop 4).length = st.block_size_in - 4 := by
    rw [List.length_drop, hhl]
  have hcond : ¬ (((unpack_u32 (stream.take 4) : Int)
      - ((st.block_size_in - 4 : Nat) : Int)) % (st.block_size_in : Int) ≠ 0) := by
    rw [not_ne_iff]
    exact (blocking_cond_iff _ _ hbs).mpr hal
  unfold read_message read_all rm_packet rm_mac
  rw [if_neg h1, hrk]
  simp only [Bool.and_false, Bool.false_eq_true, if_false, hh4, hlo, hhl]
  rw [if_neg (by omega : ¬ (st.block_size_in < 4))]
  rw [if_neg hcond]
  by_cases hE : (stream.drop st.block_size_in).length
      < unpack_u32 (stream.take 4) + st.mac_size_in - (st.block_size_in - 4)
  · simp only [if_pos hE]
  · simp only [if_neg hE]

/-- When the header is available, no rekey is pending and the blocking
check fails, `read_message` raises the "Invalid packet blocking" error
without touching the body of the frame or the state. -/
theorem read_message_blocking_of_misaligned (st : Packetizer) (stream : Bytes)
    (hbs : 4 ≤ st.block_size_in) (hlen : st.block_size_in ≤ stream.length)
    (hrk : need_rekey st = false)
    (hbad : (unpack_u32 (stream.take 4) + 4) % st.block_size_in ≠ 0) :
    read_message st stream = (st, Except.error PError.invalidPacketBlocking) := by
  have h1 : ¬ (stream.length < st.block_size_in) := not_lt.mpr hlen
  have hhl : (stream.take st.block_size_in).length = st.block_size_in := by
    rw [List.length_take]; omega
  have hh4 : (stream.take st.block_size_in).take 4 = stream.take 4 := by
    rw [List.take_take]; congr 1; omega
  have hlo : ((stream.take st.block_size_in).drop 4).length = st.block_size_in - 4 := by
    rw [List.length_drop, hhl]
  have hcond : (((unpack_u32 (stream.take 4) : Int)
      - ((st.block_size_in - 4 : Nat) : Int)) % (st.block_size_in : Int) ≠ 0) := by
    intro h
    exact hbad ((blocking_cond_iff _ _ hbs).mp h)
  unfold read_message read_all
  rw [if_neg h1, hrk]
  simp only [Bool.and_false, Bool.false_eq_true, if_false, hh4, hlo, hhl]
  rw [if_neg (by omega : ¬ (st.block_size_in < 4))]
  rw [if_pos hcond]

/-
Concrete cipher/MAC engines used as test fixtures: the identity cipher
and constant MACs, so both directions of a loopback pair agree on every
MAC value.
-/

/-- Identity block cipher (a faithful stand-in for any stream transform
when checking pure framing behaviour). -/
def enc_id : Bytes → Bytes := fun d => d

/-- Outbound MAC engine returning a constant four-byte digest. -/
def mac_out4 : Bytes → Nat → Bytes → Bytes := fun _ _ _ => [0, 0, 0, 0]

/-- Inbound MAC engine returning the same constant four-byte digest, so
the loopback peers share the MAC configuration. -/
def mac_in4 : Bytes → Bytes → Bytes := fun _ _ => [0, 0, 0, 0]

/-- Outbound MAC engine returning an empty digest (MAC size 0). -/
def mac_out0 : Bytes → Nat → Bytes → Bytes := fun _ _ _ => []

/-- Loopback state for the round-trip test: both slots use the identity
cipher with block size 8 and the shared constant four-byte MAC. -/
def c1_state : Packetizer :=
  set_inbound_cipher
    (set_outbound_cipher packetizer_init (some enc_id) 8 (some mac_out4) 4 [] false false)
    (some enc_id) 8 (some mac_in4) 4 [] false

/-- C1: the send/read round-trip law fails on the code.  With identical
loopback slots (identity cipher, shared constant MAC, block size 8),
`send_message` emits the 4-byte-payload frame `len ‖ payload ‖ mac` with
no padding-length byte and no padding, and `read_message` on exactly
those bytes consumes the first payload byte as a padding length and
strips the last byte as padding, returning `[2, 3]` instead of
`[1, 2, 3, 4]`.  With the "none" cipher (both engines unset, the
`__init__` state) `send_message` does not even run: it calls `.encrypt`
on `None` and dies with `AttributeError`. -/
theorem send_read_message_roundtrip_broken :
    (send_message c1_state true [1, 2, 3, 4]).2
      = Except.ok [0, 0, 0, 4, 1, 2, 3, 4, 0, 0, 0, 0] ∧
    (read_message c1_state [0, 0, 0, 4, 1, 2, 3, 4, 0, 0, 0, 0]).2
      = Except.ok [2, 3] ∧
    ([2, 3] : Bytes) ≠ [1, 2, 3, 4] ∧
    (send_message packetizer_init true [1, 2, 3, 4]).2
      = Except.error PError.attributeError := by
  refine ⟨rfl, rfl, by decide, rfl⟩

/-- Outbound-only state for the framing test: identity cipher, block
size 8, MAC size 0 with an empty digest. -/
def c2_state : Packetizer :=
  set_outbound_cipher packetizer_init (some enc_id) 8 (some mac_out0) 0 [] false false

/-- C2: `send_message` produces no padding at all.  For the one-byte
payload `[65]` under a block size of 8, the emitted frame is exactly the
4-byte length field followed by the raw payload: its length excluding
the (empty) MAC is 5, not a multiple of `max 8 block_size = 8`, and it
contains no padding-length field and no padding bytes, let alone a
padding length in `[4, 255]`. -/
theorem send_message_frame_unpadded :
    (send_message c2_state true [65]).2 = Except.ok [0, 0, 0, 1, 65] ∧
    ([0, 0, 0, 1, 65] : Bytes).length % max 8 c2_state.block_size_out ≠ 0 := by
  refine ⟨rfl, by decide⟩

/-- State whose inbound rekey counters are exactly at the 2^29 threshold
while everything outbound is at zero and the explicit flag is unset. -/
def c3_state : Packetizer :=
  { packetizer_init with received_bytes := 536870912, received_packets := 536870912 }

/-- C3 counterexample: with `received_bytes` and `received_packets` both
equal to 2^29 (and the explicit flag unset, sent counters zero),
`need_rekey` returns `false`, though the claim says a received counter
reaching 2^29 makes it true: the implementation never consults the
inbound counters. -/
theorem need_rekey_ignores_inbound_counters :
    REKEY_BYTES ≤ c3_state.received_bytes ∧
    REKEY_PACKETS ≤ c3_state.received_packets ∧
    c3_state.need_rekey_flag = false ∧
    need_rekey c3_state = false := by
  refine ⟨by decide, by decide, rfl, rfl⟩

/-- C3 amended: `need_rekey` is true exactly when the explicit flag is
set or `sent_bytes ≥ 2^29` or `sent_packets ≥ 2^29`; the received
counters never affect it.  At the boundaries: all four counters at
`2^29 - 1` with the flag unset give `false`, and either sent counter at
exactly `2^29` gives `true`. -/
theorem need_rekey_characterization (st : Packetizer) (rb rp : Nat) :
    (need_rekey st = true ↔
      st.need_rekey_flag = true ∨ REKEY_BYTES ≤ st.sent_bytes
        ∨ REKEY_PACKETS ≤ st.sent_packets) ∧
    need_rekey { st with received_bytes := rb, received_packets := rp } = need_rekey st ∧
    need_rekey { packetizer_init with
      sent_bytes := REKEY_BYTES - 1, sent_packets := REKEY_PACKETS - 1,
      received_bytes := REKEY_BYTES - 1, received_packets := REKEY_PACKETS - 1 } = false ∧
    need_rekey { packetizer_init with sent_bytes := REKEY_BYTES } = true ∧
    need_rekey { packetizer_init with sent_packets := REKEY_PACKETS } = true := by
  refine ⟨?_, rfl, by decide, by decide, by decide⟩
  simp [need_rekey, Bool.or_eq_true, decide_eq_true_eq, or_assoc]

/-- C5: the mpint round-trip is broken.  `deflate_long(-1)` falls into
the degenerate branch with `i = 1` and returns the empty byte string
(sign padding is skipped because the string is empty), and
`inflate_long(b"")` is `0 ≠ -1`.  Minimality also fails: `deflate_long`
never strips leading bytes (its strip loop compares ints to one-char
strings, which is always unequal in Python 3), so `deflate_long(127)` is
the four-byte `00 00 00 7f` rather than the minimal `7f`, which
`inflate_long` confirms decodes to the same value. -/
theorem deflate_inflate_roundtrip_broken :
    deflate_long (-1) true = [] ∧
    inflate_long (deflate_long (-1) true) false = 0 ∧
    (0 : Int) ≠ -1 ∧
    deflate_long 127 true = [0, 0, 0, 127] ∧
    inflate_long [127] false = 127 ∧
    ([0, 0, 0, 127] : Bytes) ≠ [127] := by
  refine ⟨?_, ?_, by decide, ?_, ?_, by decide⟩
  · simp [deflate_long, negChunks, deflate_sign_pad]
  · simp [deflate_long, negChunks, deflate_sign_pad, inflate_long, inflate_chunks]
  · simp [deflate_long, posChunks, pack_u32, deflate_sign_pad]
  · simp [inflate_long, inflate_chunks, unpack_u32, pack_u32]
    decide

/-- C6: `deflate_long` does not strip redundant leading bytes.  For
`n = 255` it returns `00 00 00 ff`, keeping two redundant `0x00` bytes:
the two-byte suffix `00 ff` still encodes 255 with the high-bit rule
intact (the repository's own `inflate_long` decodes it to 255), so the
result is not minimal.  The strip loop is dead code: it compares the int
`s[i]` with the strings `"\000"`/`"\xff"`, which is always unequal in
Python 3, so it breaks at `i = 0` for every nonempty string. -/
theorem deflate_long_keeps_redundant_leading_bytes :
    deflate_long 255 true = [0, 0, 0, 255] ∧
    inflate_long [0, 255] false = 255 ∧
    ([0, 0, 0, 255] : Bytes).length ≠ ([0, 255] : Bytes).length := by
  refine ⟨?_, ?_, by decide⟩
  · simp [deflate_long, posChunks, pack_u32, deflate_sign_pad]
  · simp [inflate_long, inflate_chunks, unpack_u32]

/-- Outbound state used for the send-failure test: identity cipher,
constant four-byte MAC, sequence number zero. -/
def c9_state : Packetizer :=
  set_outbound_cipher packetizer_init (some enc_id) 8 (some mac_out4) 4 [] false false

/-- C9 counterexample: `send_message` increments
`__sequence_number_out` *before* calling `sendall`, so when the write
fails the sequence number has already advanced from 0 to 1 even though
`sent_bytes` and `sent_packets` are untouched — the send is not atomic
over all three counters as claimed. -/
theorem send_message_failed_write_still_advances_seq :
    (send_message c9_state false [7]).2 = Except.error PError.socketError ∧
    c9_state.sequence_number_out = 0 ∧
    (send_message c9_state false [7]).1.sequence_number_out = 1 ∧
    (send_message c9_state false [7]).1.sent_bytes = c9_state.sent_bytes ∧
    (send_message c9_state false [7]).1.sent_packets = c9_state.sent_packets := by
  refine ⟨rfl, rfl, rfl, rfl, rfl⟩

/-- C9 amended: `sent_bytes` and `sent_packets` advance only after the
full frame is written, so a failed write leaves them unchanged; but
`seq_out` is advanced before the write and is therefore incremented
(mod 2^32) whether or not the write succeeds.  On success all three
advance and the whole frame is on the wire. -/
theorem send_message_counter_discipline (st : Packetizer) (enc : Bytes → Bytes)
    (mec : Bytes → Nat → Bytes → Bytes) (data : Bytes)
    (henc : st.block_engine_out = some enc) (hmec : st.mac_engine_out = some mec) :
    ((send_message st false data).2 = Except.error PError.socketError ∧
     (send_message st false data).1.sent_bytes = st.sent_bytes ∧
     (send_message st false data).1.sent_packets = st.sent_packets ∧
     (send_message st false data).1.sequence_number_out
        = (st.sequence_number_out + 1) % 4294967296) ∧
    ((send_message st true data).2
        = Except.ok (pack_u32 (enc data).length ++ enc data
            ++ mec st.mac_key_out st.sequence_number_out (enc data)) ∧
     (send_message st true data).1.sent_bytes
        = st.sent_bytes + (pack_u32 (enc data).length ++ enc data
            ++ mec st.mac_key_out st.sequence_number_out (enc data)).length ∧
     (send_message st true data).1.sent_packets = st.sent_packets + 1 ∧
     (send_message st true data).1.sequence_number_out
        = (st.sequence_number_out + 1) % 4294967296) := by
  simp [send_message, henc, hmec]

/-- Witness for `send_message_counter_discipline` at a concrete state. -/
theorem send_message_counter_discipline_witness :
    (send_message c9_state false [7]).2 = Except.error PError.socketError ∧
    (send_message c9_state true [7]).1.sent_packets = c9_state.sent_packets + 1 :=
  ⟨(send_message_counter_discipline c9_state enc_id mac_out4 [7] rfl rfl).1.1,
   (send_message_counter_discipline c9_state enc_id mac_out4 [7] rfl rfl).2.2.2.1⟩

/-- C10: `set_outbound_cipher` assigns exactly the seven outbound slot
fields and `set_inbound_cipher` exactly the six inbound ones; neither
touches the sequence numbers, the four rekey byte/packet counters, the
explicit rekey flag, or any field of the opposite direction's slot. -/
theorem set_cipher_slot_isolation (st : Packetizer)
    (be : Option (Bytes → Bytes)) (bs : Nat)
    (me : Option (Bytes → Nat → Bytes → Bytes)) (ms : Nat) (mk : Bytes)
    (sdctr etm : Bool)
    (bei : Option (Bytes → Bytes)) (bsi : Nat)
    (mei : Option (Bytes → Bytes → Bytes)) (msi : Nat) (mki : Bytes) (etmi : Bool) :
    (let s := set_outbound_cipher st be bs me ms mk sdctr etm
     s.block_engine_out = be ∧ s.block_size_out = bs ∧ s.mac_engine_out = me ∧
     s.mac_size_out = ms ∧ s.mac_key_out = mk ∧ s.sdctr_out = sdctr ∧ s.etm_out = etm ∧
     s.sequence_number_out = st.sequence_number_out ∧
     s.sequence_number_in = st.sequence_number_in ∧
     s.sent_bytes = st.sent_bytes ∧ s.sent_packets = st.sent_packets ∧
     s.received_bytes = st.received_bytes ∧ s.received_packets = st.received_packets ∧
     s.need_rekey_flag = st.need_rekey_flag ∧
     s.block_engine_in = st.block_engine_in ∧ s.block_size_in = st.block_size_in ∧
     s.mac_engine_in = st.mac_engine_in ∧ s.mac_size_in = st.mac_size_in ∧
     s.mac_key_in = st.mac_key_in ∧ s.etm_in = st.etm_in) ∧
    (let s := set_inbound_cipher st bei bsi mei msi mki etmi
     s.block_engine_in = bei ∧ s.block_size_in = bsi ∧ s.mac_engine_in = mei ∧
     s.mac_size_in = msi ∧ s.mac_key_in = mki ∧ s.etm_in = etmi ∧
     s.sequence_number_out = st.sequence_number_out ∧
     s.sequence_number_in = st.sequence_number_in ∧
     s.sent_bytes = st.sent_bytes ∧ s.sent_packets = st.sent_packets ∧
     s.received_bytes = st.received_bytes ∧ s.received_packets = st.received_packets ∧
     s.need_rekey_flag = st.need_rekey_flag ∧
     s.block_engine_out = st.block_engine_out ∧ s.block_size_out = st.block_size_out ∧
     s.mac_engine_out = st.mac_engine_out ∧ s.mac_size_out = st.mac_size_out ∧
     s.mac_key_out = st.mac_key_out ∧ s.sdctr_out = st.sdctr_out ∧
     s.etm_out = st.etm_out) := by
  constructor <;> simp [set_outbound_cipher, set_inbound_cipher]

/-- C8: the handshake deadline state machine.  If `start_handshake t` is
followed by `t` or more time units with no completion, the armed timer
fires and `handshake_timed_out` returns `true`.  If `complete_handshake`
runs strictly before the deadline, the timer is cancelled, so even after
arbitrarily more time `handshake_timed_out` returns `false`.  The query
itself is pure: as a method it returns the state unchanged next to the
boolean. -/
theorem handshake_timeout_state_machine (t dt dt2 dt3 : Nat)
    (hfire : t ≤ dt) (hearly : dt2 < t) :
    handshake_timed_out (elapse (start_handshake handshake_init t) dt) = true ∧
    handshake_timed_out
      (elapse (complete_handshake (elapse (start_handshake handshake_init t) dt2)) dt3)
      = false ∧
    (∀ s : HandshakeState, handshake_timed_out_method s = (s, handshake_timed_out s)) := by
  have h2 : ¬ (t ≤ dt2) := by omega
  refine ⟨?_, ?_, fun s => rfl⟩
  · simp [handshake_init, start_handshake, elapse, hfire, handshake_timer_fire,
      handshake_timed_out]
  · simp [handshake_init, start_handshake, elapse, h2, complete_handshake,
      handshake_timed_out]

/-- Witness for `handshake_timeout_state_machine` with a deadline of 5:
the timer has fired by time 7, while completing at time 3 keeps the
query false even at time 103. -/
theorem handshake_timeout_state_machine_witness :
    handshake_timed_out (elapse (start_handshake handshake_init 5) 7) = true ∧
    handshake_timed_out
      (elapse (complete_handshake (elapse (start_handshake handshake_init 5) 3)) 100)
      = false :=
  ⟨(handshake_timeout_state_machine 5 7 3 100 (by decide) (by decide)).1,
   (handshake_timeout_state_machine 5 7 3 100 (by decide) (by decide)).2.1⟩

/-- C7 counterexample: with the default inbound block size of 8 and a
header declaring `packet_size = 8` — a declared total length that *is*
congruent to 0 modulo the block size — `read_message` still raises
"Invalid packet blocking", because the implementation's test is
`(packet_size - len(leftover)) % block_size ≠ 0`, i.e. alignment of
`packet_size + 4` (the frame including the four length bytes), not of
the declared length itself. -/
theorem read_message_blocking_on_aligned_declared_length :
    unpack_u32 [0, 0, 0, 8] % packetizer_init.block_size_in = 0 ∧
    (read_message packetizer_init [0, 0, 0, 8, 0, 0, 0, 0]).2
      = Except.error PError.invalidPacketBlocking := by
  refine ⟨by decide, rfl⟩

/-- C7 amended: provided a full header is available (block size at least
4, enough stream bytes, no rekey pending), `read_message` raises the
fatal "Invalid packet blocking" error exactly when the declared length
*plus the four length-field bytes* is not congruent to 0 modulo the
inbound cipher block size; the check happens before the frame body is
read. -/
theorem read_message_blocking_exactly_on_misaligned_frame (st : Packetizer) (stream : Bytes)
    (hbs : 4 ≤ st.block_size_in) (hlen : st.block_size_in ≤ stream.length)
    (hrk : need_rekey st = false) :
    (read_message st stream).2 = Except.error PError.invalidPacketBlocking ↔
      (unpack_u32 (stream.take 4) + 4) % st.block_size_in ≠ 0 := by
  constructor
  · intro h
    by_contra hal
    rw [read_message_past_blocking st stream hbs hlen hrk hal] at h
    by_cases hE : (stream.drop st.block_size_in).length
        < unpack_u32 (stream.take 4) + st.mac_size_in - (st.block_size_in - 4)
    · rw [if_pos hE] at h
      simp at h
    · rw [if_neg hE] at h
      exact read_message_mac_not_blocking _ _ _ _ h
  · intro hbad
    rw [read_message_blocking_of_misaligned st stream hbs hlen hrk hbad]

/-- Witness for `read_message_blocking_exactly_on_misaligned_frame`: a
declared length of 5 gives `5 + 4 = 9 ≢ 0 (mod 8)`, so the error is
raised. -/
theorem read_message_blocking_exactly_witness :
    (read_message packetizer_init [0, 0, 0, 5, 9, 9, 9, 9]).2
      = Except.error PError.invalidPacketBlocking :=
  (read_message_blocking_exactly_on_misaligned_frame packetizer_init
    [0, 0, 0, 5, 9, 9, 9, 9] (by decide) (by decide) rfl).mpr (by decide)

/-- C4: on any inbound frame with a positive MAC size, when the received
MAC differs from the one the inbound engine computes over the packed
sequence number and the packet bytes, `read_message` fails with the
MAC-mismatch protocol error — a different error constructor from the
malformed-framing ("Invalid packet blocking") one — returning no payload
and leaving the state untouched: the MAC is checked before the padding
byte or payload of the packet is ever consulted. -/
theorem read_message_mac_mismatch_fatal (st : Packetizer) (stream : Bytes)
    (eng : Bytes → Bytes → Bytes)
    (heng : st.mac_engine_in = some eng)
    (hms : 0 < st.mac_size_in)
    (hbs : 4 ≤ st.block_size_in)
    (hrk : need_rekey st = false)
    (hlen : st.block_size_in ≤ stream.length)
    (hal : (unpack_u32 (stream.take 4) + 4) % st.block_size_in = 0)
    (hlen2 : unpack_u32 (stream.take 4) + st.mac_size_in - (st.block_size_in - 4)
        ≤ (stream.drop st.block_size_in).length)
    (hmm : eng st.mac_key_in (pack_u32 st.sequence_number_in ++ rm_packet st stream)
        ≠ rm_mac st stream) :
    read_message st stream = (st, Except.error PError.mismatchedMAC) ∧
    PError.mismatchedMAC ≠ PError.invalidPacketBlocking := by
  refine ⟨?_, by simp⟩
  rw [read_message_past_blocking st stream hbs hlen hrk hal, if_neg (not_lt.mpr hlen2)]
  unfold read_message_mac
  rw [if_pos hms, heng]
  dsimp only
  rw [if_pos hmm]

/-- Inbound MAC engine whose digest never matches the constant zero MAC
carried by the test frames. -/
def mac_in_wrong : Bytes → Bytes → Bytes := fun _ _ => [1, 1, 1, 1]

/-- Inbound state for the MAC-mismatch test: identity cipher, block
size 8, MAC size 4, an engine producing `[1,1,1,1]`. -/
def c4_state : Packetizer :=
  set_inbound_cipher packetizer_init (some enc_id) 8 (some mac_in_wrong) 4 [] false

/-- Frame carrying a zero MAC, which `mac_in_wrong` cannot reproduce. -/
def c4_stream : Bytes := [0, 0, 0, 4, 9, 9, 9, 9, 0, 0, 0, 0]

/-- Witness for `read_message_mac_mismatch_fatal` on a concrete frame
whose MAC bytes are all zero while the engine digest is `[1,1,1,1]`. -/
theorem read_message_mac_mismatch_fatal_witness :
    read_message c4_state c4_stream = (c4_state, Except.error PError.mismatchedMAC) :=
  (read_message_mac_mismatch_fatal c4_state c4_stream mac_in_wrong rfl (by decide)
    (by decide) rfl (by decide) (by decide) (by decide) (by decide)).1
